import Mathlib

/-!
Shallow embedding of the impact-assessment tool (src/validate.py and
src/get_json.py): the catalog lookup and impact resolution
(`assess_impact`), report sorting (`generate_table_report` /
`generate_table_per_node`), per-node grouping (`print_report`,
`generate_consolidated_json`, `generate_graph_data_json`), filename
sanitization (`sanitize_filename`), inventory extraction
(`get_pods_on_node`, `extract_containers`), and the exit-code behaviour
of `main` and `get_all_pods`.

JSON dictionaries are modelled as association lists; Python `dict.get`
with a default becomes `List.lookup`/`Option.getD`.  Python's `sorted`
is a stable sort by key, modelled with `List.insertionSort` (which is
stable, inserting each element before the first element it is `≤` to).
-/

namespace NodeFailure

/-- One value of the two-level `container_info.json` dictionary.  The
fields are optional because `assess_impact` reads each of them with
`dict.get` and a default (validate.py lines 118, 137, 138). -/
structure CatalogEntry where
  description : Option String
  dependencies : Option (List String)
  criticality : Option String
deriving DecidableEq

/-- `container_info.json`: namespace → container name → entry. -/
def Catalog := List (String × List (String × CatalogEntry))

/-- `container_info.get(namespace, {}).get(container_name)`
(validate.py line 109). -/
def lookupInfo (info : Catalog) (ns container : String) : Option CatalogEntry :=
  match List.lookup ns info with
  | none => none
  | some m => List.lookup container m

/-- One element of the list built by `extract_containers`
(validate.py lines 83-88). -/
structure ContainerInstance where
  «namespace» : String
  pod_name : String
  container_name : String
  node_name : String
deriving DecidableEq

/-- One element of the `reports` list built by `assess_impact`
(validate.py lines 132-142). -/
structure ImpactRecord where
  «namespace» : String
  pod_name : String
  container_name : String
  node_name : String
  description : String
  dependencies : List String
  criticality : String
  criticality_sort : Nat
  impact : String
deriving DecidableEq

/-- The default info dictionary substituted by `assess_impact` when the
catalog lookup misses (validate.py lines 112-116). -/
def defaultInfo : CatalogEntry :=
  { description := some "No information available"
    dependencies := some []
    criticality := some "unknown" }

/-- The `if/elif` chain of `assess_impact` mapping the criticality
string to the impact label and the sort key
(validate.py lines 119-130). -/
def classify (criticality : String) : String × Nat :=
  if criticality = "high" then ("High impact", 1)
  else if criticality = "medium" then ("Moderate impact", 2)
  else if criticality = "low" then ("Low impact", 3)
  else ("Unknown impact", 4)

/-- The body of the `assess_impact` loop for one container: catalog
lookup with default substitution on a miss, field defaults via
`dict.get`, and classification (validate.py lines 104-142). -/
def resolveOne (info : Catalog) (c : ContainerInstance) : ImpactRecord :=
  let entry := (lookupInfo info c.«namespace» c.container_name).getD defaultInfo
  let criticality := entry.criticality.getD "unknown"
  let ic := classify criticality
  { «namespace» := c.«namespace»
    pod_name := c.pod_name
    container_name := c.container_name
    node_name := c.node_name
    description := entry.description.getD "No information available"
    dependencies := entry.dependencies.getD []
    criticality := criticality
    criticality_sort := ic.2
    impact := ic.1 }

/-- `assess_impact(containers, container_info)` (validate.py lines
99-143): one report per container in input order, and one
`(namespace, container_name)` gap appended per container whose lookup
misses, in input order. -/
def assess_impact : List ContainerInstance → Catalog →
    List ImpactRecord × List (String × String)
  | [], _ => ([], [])
  | c :: cs, info =>
    let rest := assess_impact cs info
    (resolveOne info c :: rest.1,
      if (lookupInfo info c.«namespace» c.container_name).isNone then
        (c.«namespace», c.container_name) :: rest.2
      else rest.2)

/-- The character filter of `sanitize_filename`:
`c.isalnum() or c in (' ', '_', '-')` (validate.py line 147).
Python's `str.isalnum` is Unicode-aware; we model its ASCII behaviour
with `Char.isAlphanum`, which agrees on every input the program's
callers produce. -/
def keepChar (c : Char) : Bool :=
  c.isAlphanum || c = ' ' || c = '_' || c = '-'

/-- Python `str.rstrip()`: remove trailing whitespace. -/
def rstrip (l : List Char) : List Char :=
  (l.reverse.dropWhile Char.isWhitespace).reverse

/-- `sanitize_filename` (validate.py lines 145-147): keep only
alphanumerics, space, underscore and hyphen, then `rstrip`. -/
def sanitize_filename (filename : String) : String :=
  String.mk (rstrip (filename.data.filter keepChar))

/-- The report filename chosen by `print_report` (validate.py lines
152-158).  `current_datetime` stands for
`datetime.now().strftime("%Y%m%d_%H%M")`; `selected_node = none` is the
combined (all-nodes) report. -/
def report_filename (selected_node : Option String) (current_datetime : String) : String :=
  match selected_node with
  | some n => sanitize_filename n ++ "_" ++ current_datetime ++ ".txt"
  | none => "combined_nodes_" ++ current_datetime ++ ".txt"

/-- `sorted(reports, key=lambda x: x['criticality_sort'])`, the row
order of both `generate_table_per_node` (validate.py line 205) and
`generate_table_report` (validate.py line 226).  Python's `sorted` is
stable; `List.insertionSort` with this reflexive total relation is the
stable sort by the same key. -/
def sorted_reports (reports : List ImpactRecord) : List ImpactRecord :=
  List.insertionSort (fun a b => a.criticality_sort ≤ b.criticality_sort) reports

/-- `sorted(set(report['node_name'] for report in impact_reports))`,
used identically by the combined branch of `print_report`
(validate.py line 185), `generate_consolidated_json` (line 282) and
`generate_graph_data_json` (line 296): the ascending list of the
distinct node names. -/
def node_names_sorted (reports : List ImpactRecord) : List String :=
  List.insertionSort (· ≤ ·) (reports.map (fun r => r.node_name)).dedup

/-- The per-node partition shared by the combined branch of
`print_report` (validate.py lines 185-187) and
`generate_consolidated_json` (lines 282-286): for each node name in
ascending order, the sublist of reports whose `node_name` equals it. -/
def group_reports_by_node (reports : List ImpactRecord) :
    List (String × List ImpactRecord) :=
  (node_names_sorted reports).map
    (fun n => (n, reports.filter (fun r => r.node_name == n)))

/-- A vertex of the graph export (validate.py lines 307-313);
`id` and `label` are both `"{namespace}/{container_name}"`. -/
structure GraphVertex where
  id : String
  label : String
  criticality : String
  description : String
  dependencies : List String
deriving DecidableEq

/-- An edge of the graph export (validate.py lines 316-319); `fromId`
and `toId` are the JSON keys `'from'` and `'to'`. -/
structure GraphEdge where
  fromId : String
  toId : String
deriving DecidableEq

/-- The per-node `node_graph` dictionary (validate.py lines 300-303). -/
structure NodeGraph where
  nodes : List GraphVertex
  edges : List GraphEdge
deriving DecidableEq

/-- `f"{report['namespace']}/{report['container_name']}"`
(validate.py line 306). -/
def container_full_name (r : ImpactRecord) : String :=
  r.«namespace» ++ "/" ++ r.container_name

/-- The vertex appended for one report (validate.py lines 307-313). -/
def graph_vertex (r : ImpactRecord) : GraphVertex :=
  { id := container_full_name r
    label := container_full_name r
    criticality := r.criticality
    description := r.description
    dependencies := r.dependencies }

/-- The loop of `generate_graph_data_json` over one node's reports
(validate.py lines 305-319): for each report, append its vertex and one
edge per dependency, in order. -/
def build_node_graph : List ImpactRecord → NodeGraph
  | [] => { nodes := [], edges := [] }
  | r :: rs =>
    let g := build_node_graph rs
    { nodes := graph_vertex r :: g.nodes
      edges := r.dependencies.map
          (fun dep => { fromId := container_full_name r, toId := dep }) ++ g.edges }

/-- `generate_graph_data_json` (validate.py lines 293-326) up to
serialization: the mapping from each node name (ascending) to the graph
built from that node's reports. -/
def generate_graph_data (reports : List ImpactRecord) :
    List (String × NodeGraph) :=
  (node_names_sorted reports).map
    (fun n => (n, build_node_graph (reports.filter (fun r => r.node_name == n))))

/-- A pod as `extract_containers` and `get_pods_on_node` read it:
`metadata.namespace`, `metadata.name`, `spec.nodeName` (absent on
unscheduled pods, hence optional), and `spec.containers[].name`. -/
structure Pod where
  «namespace» : String
  pod_name : String
  nodeName : Option String
  containers : List String
deriving DecidableEq

/-- `get_pods_on_node` (validate.py lines 60-69): keep the pods whose
`spec.get('nodeName')` equals the selected node name. -/
def get_pods_on_node (pods : List Pod) (node_name : String) : List Pod :=
  pods.filter (fun p => p.nodeName == some node_name)

/-- `extract_containers` (validate.py lines 75-89): one
`ContainerInstance` per (pod, container) pair, with
`spec.get('nodeName', 'Unknown')` as the node. -/
def extract_containers (pods : List Pod) : List ContainerInstance :=
  pods.flatMap (fun p => p.containers.map (fun cname =>
    { «namespace» := p.«namespace»
      pod_name := p.pod_name
      container_name := cname
      node_name := p.nodeName.getD "Unknown" }))

/-- How `main` in validate.py terminates. `completed` is a normal run
to the menu's quit; `earlyReturn` is a plain `return` after a printed
message; `raised` is an uncaught exception.  The Python interpreter
exits with code 0 for the first two and code 1 for the last. -/
inductive MainOutcome
  | completed
  | earlyReturn
  | raised
deriving DecidableEq

/-- The control flow of `main` (validate.py lines 353-397) as a
function of its environment.  If `session.json` is absent,
`save_session_data` runs `kubectl`; when that fails its stdout is not
JSON and `json.loads` raises (uncaught).  Then: empty node list →
early return (line 366); `container_info.json` absent →
`load_container_info` returns `None` → early return (line 371); no
containers → early return (line 383); otherwise the menu runs and the
program completes normally. -/
def mainOutcome (session_exists kubectl_ok : Bool) (node_names : List String)
    (catalog_exists : Bool) (containers_nonempty : Bool) : MainOutcome :=
  if !session_exists && !kubectl_ok then .raised
  else if node_names.isEmpty then .earlyReturn
  else if !catalog_exists then .earlyReturn
  else if !containers_nonempty then .earlyReturn
  else .completed

/-- The process exit code a `MainOutcome` produces: Python exits 0 on a
normal return from `main` and 1 on an uncaught exception. -/
def processExitCode : MainOutcome → Nat
  | .completed => 0
  | .earlyReturn => 0
  | .raised => 1

/-- `get_all_pods` (get_json.py lines 6-14): on a nonzero `kubectl`
return code it calls `sys.exit(1)`; otherwise it proceeds
(`none` = no exit). -/
def get_all_pods_exit_code (returncode : Int) : Option Nat :=
  if returncode ≠ 0 then some 1 else none

/-- The sanitization exactly as the specification words it: keep only
alphanumerics, spaces, underscores and hyphens, stripping all other
characters (and nothing else).  Compared against `sanitize_filename`,
which additionally calls `rstrip`. -/
def claimed_sanitize (filename : String) : String :=
  String.mk (filename.data.filter keepChar)

/-- The amended sanitization: keep only alphanumerics, spaces,
underscores and hyphens, then remove trailing spaces. -/
def amended_sanitize (filename : String) : String :=
  String.mk (((filename.data.filter keepChar).reverse.dropWhile (fun c => c == ' ')).reverse)

instance : IsTotal ImpactRecord (fun a b => a.criticality_sort ≤ b.criticality_sort) :=
  ⟨fun a b => Nat.le_total a.criticality_sort b.criticality_sort⟩

instance : IsTrans ImpactRecord (fun a b => a.criticality_sort ≤ b.criticality_sort) :=
  ⟨fun _ _ _ h₁ h₂ => Nat.le_trans h₁ h₂⟩

/-- The reports component of `assess_impact` is `resolveOne` mapped
over the instances, in input order. -/
theorem assess_impact_fst (info : Catalog) :
    ∀ instances : List ContainerInstance,
      (assess_impact instances info).1 = instances.map (resolveOne info)
  | [] => rfl
  | c :: cs => by
    simp [assess_impact, assess_impact_fst info cs]

/-- The gaps component of `assess_impact`: one pair per instance whose
lookup misses, in input order. -/
theorem assess_impact_snd (info : Catalog) :
    ∀ instances : List ContainerInstance,
      (assess_impact instances info).2
        = (instances.filter
            (fun c => (lookupInfo info c.«namespace» c.container_name).isNone)).map
            (fun c => (c.«namespace», c.container_name))
  | [] => rfl
  | c :: cs => by
    rw [List.filter_cons]
    by_cases h : (lookupInfo info c.«namespace» c.container_name).isNone = true
    · simp [assess_impact, h, assess_impact_snd info cs]
    · simp [assess_impact, h, assess_impact_snd info cs]

/-- Inserting an element whose key equals `k` prepends it to the
`k`-filtered list: `orderedInsert` places an element before the first
element it compares `≤` to, so every element it passes over has a
strictly smaller key. -/
theorem filter_orderedInsert_key {α : Type} (key : α → Nat) (k : Nat) (x : α)
    (hx : key x = k) :
    ∀ l : List α,
      (List.orderedInsert (fun a b => key a ≤ key b) x l).filter (fun y => key y == k)
        = x :: l.filter (fun y => key y == k)
  | [] => by simp [hx]
  | b :: l => by
    simp only [List.orderedInsert]
    by_cases h : key x ≤ key b
    · rw [if_pos h]
      simp [List.filter_cons, hx]
    · rw [if_neg h]
      have hb : ¬ key b = k := by omega
      simp [List.filter_cons, hb, filter_orderedInsert_key key k x hx l]

/-- Inserting an element whose key differs from `k` leaves the
`k`-filtered list unchanged. -/
theorem filter_orderedInsert_key_ne {α : Type} (key : α → Nat) (k : Nat) (x : α)
    (hx : ¬ key x = k) :
    ∀ l : List α,
      (List.orderedInsert (fun a b => key a ≤ key b) x l).filter (fun y => key y == k)
        = l.filter (fun y => key y == k)
  | [] => by simp [hx]
  | b :: l => by
    simp only [List.orderedInsert]
    by_cases h : key x ≤ key b
    · rw [if_pos h]
      simp [List.filter_cons, hx]
    · rw [if_neg h]
      simp [List.filter_cons, filter_orderedInsert_key_ne key k x hx l]

/-- Stability of insertion sort by a `Nat` key, expressed by filtering:
the elements with any fixed key value keep their input order. -/
theorem filter_insertionSort_key {α : Type} (key : α → Nat) (k : Nat) :
    ∀ l : List α,
      (List.insertionSort (fun a b => key a ≤ key b) l).filter (fun y => key y == k)
        = l.filter (fun y => key y == k)
  | [] => rfl
  | x :: l => by
    by_cases hx : key x = k
    · rw [List.insertionSort, filter_orderedInsert_key key k x hx _,
        filter_insertionSort_key key k l]
      simp [hx]
    · rw [List.insertionSort, filter_orderedInsert_key_ne key k x hx _,
        filter_insertionSort_key key k l]
      simp [hx]

/-- A list sorted weakly that has no duplicates is sorted strictly. -/
theorem pairwise_lt_of_le_nodup : ∀ {l : List String},
    l.Pairwise (· ≤ ·) → l.Nodup → l.Pairwise (· < ·)
  | [], _, _ => List.Pairwise.nil
  | a :: l, hs, hn => by
    rw [List.pairwise_cons] at hs ⊢
    rw [List.nodup_cons] at hn
    refine ⟨fun b hb => lt_of_le_of_ne (hs.1 b hb) ?_, pairwise_lt_of_le_nodup hs.2 hn.2⟩
    intro hab
    exact hn.1 (hab ▸ hb)

/-- `dropWhile` only looks at its predicate on members of the list. -/
theorem dropWhile_eq_of_agree {p q : Char → Bool} :
    ∀ {l : List Char}, (∀ c ∈ l, p c = q c) → l.dropWhile p = l.dropWhile q
  | [], _ => rfl
  | c :: l, h => by
    rw [List.dropWhile_cons, List.dropWhile_cons, h c (List.mem_cons_self c l)]
    by_cases hq : q c = true
    · simp only [hq, if_true]
      exact dropWhile_eq_of_agree (fun x hx => h x (List.mem_cons_of_mem c hx))
    · simp [hq]

/-- On characters kept by the sanitization filter, Python's whitespace
test coincides with being a space: tab, CR and LF are all rejected by
the filter. -/
theorem isWhitespace_eq_space_of_keep {c : Char} (h : keepChar c = true) :
    c.isWhitespace = (c == ' ') := by
  by_cases hsp : c = ' '
  · subst hsp
    rfl
  · have ht : c ≠ '\t' := by rintro rfl; exact absurd h (by decide)
    have hr : c ≠ '\r' := by rintro rfl; exact absurd h (by decide)
    have hn : c ≠ '\n' := by rintro rfl; exact absurd h (by decide)
    simp [Char.isWhitespace, hsp, ht, hr, hn]

/-- `sanitize_filename` equals the filter-then-drop-trailing-spaces
description: after filtering, the only whitespace characters left are
spaces, so `rstrip` removes exactly the trailing spaces. -/
theorem sanitize_filename_eq_amended (s : String) :
    sanitize_filename s = amended_sanitize s := by
  unfold sanitize_filename amended_sanitize rstrip
  congr 2
  apply dropWhile_eq_of_agree
  intro c hc
  rw [List.mem_reverse] at hc
  exact isWhitespace_eq_space_of_keep (List.of_mem_filter hc)

/-- The vertex list of the per-node graph: one vertex per report, in
report order (duplicates included). -/
theorem build_node_graph_nodes : ∀ l : List ImpactRecord,
    (build_node_graph l).nodes = l.map graph_vertex
  | [] => rfl
  | r :: rs => by simp [build_node_graph, build_node_graph_nodes rs]

/-- The edge list of the per-node graph: one edge per (report,
dependency) pair, in report order. -/
theorem build_node_graph_edges : ∀ l : List ImpactRecord,
    (build_node_graph l).edges
      = l.flatMap (fun r => r.dependencies.map
          (fun dep => { fromId := container_full_name r, toId := dep }))
  | [] => rfl
  | r :: rs => by simp [build_node_graph, build_node_graph_edges rs]

/-- C1: `assess_impact` produces exactly one `ImpactRecord` per input
instance (it is `resolveOne` mapped over the instances, so the record
list has the same length as the instance list), it is a total
function, an instance missing from the catalog still yields a record
with the unknown default criticality, and the empty instance list
yields empty record and gap outputs. -/
theorem resolve_total_one_record_per_instance
    (instances : List ContainerInstance) (info : Catalog) :
    (assess_impact instances info).1.length = instances.length
    ∧ (assess_impact instances info).1 = instances.map (resolveOne info)
    ∧ assess_impact [] info = ([], [])
    ∧ (∀ c : ContainerInstance,
        lookupInfo info c.«namespace» c.container_name = none →
          (resolveOne info c).criticality = "unknown") := by
  refine ⟨?_, assess_impact_fst info instances, rfl, ?_⟩
  · rw [assess_impact_fst info instances, List.length_map]
  · intro c h
    simp [resolveOne, h, defaultInfo]

/-- Witness for C1 at a concrete input: an empty catalog misses the
instance, which still yields a record with criticality "unknown". -/
theorem resolve_total_one_record_per_instance_witness :
    lookupInfo [] "ns1" "b" = none
    ∧ (resolveOne []
        { «namespace» := "ns1", pod_name := "p", container_name := "b",
          node_name := "n" }).criticality = "unknown" :=
  ⟨rfl,
    (resolve_total_one_record_per_instance
        [{ «namespace» := "ns1", pod_name := "p", container_name := "b",
           node_name := "n" }] []).2.2.2
      { «namespace» := "ns1", pod_name := "p", container_name := "b",
        node_name := "n" } rfl⟩

/-- C4: for every record produced by `assess_impact`, the impact label
and the sort rank are the pure function `classify` of the record's
criticality string alone, and `classify` realizes the fixed table:
high ↦ ("High impact", 1), medium ↦ ("Moderate impact", 2),
low ↦ ("Low impact", 3), and every other string — "unknown" included —
↦ ("Unknown impact", 4). -/
theorem impact_label_pure_function_of_criticality :
    (∀ (instances : List ContainerInstance) (info : Catalog) (r : ImpactRecord),
        r ∈ (assess_impact instances info).1 →
          (r.impact, r.criticality_sort) = classify r.criticality)
    ∧ classify "high" = ("High impact", 1)
    ∧ classify "medium" = ("Moderate impact", 2)
    ∧ classify "low" = ("Low impact", 3)
    ∧ classify "unknown" = ("Unknown impact", 4)
    ∧ (∀ c : String, c ≠ "high" → c ≠ "medium" → c ≠ "low" →
        classify c = ("Unknown impact", 4)) := by
  refine ⟨?_, rfl, rfl, rfl, rfl, ?_⟩
  · intro instances info r hr
    rw [assess_impact_fst] at hr
    obtain ⟨c, _, rfl⟩ := List.mem_map.mp hr
    rfl
  · intro c h1 h2 h3
    simp [classify, h1, h2, h3]

/-- Witness for C4 at a concrete input: a record resolved against the
empty catalog, and the template placeholder string classifying as
unknown. -/
theorem impact_label_pure_function_of_criticality_witness :
    (resolveOne []
        { «namespace» := "ns1", pod_name := "p", container_name := "a",
          node_name := "n" })
      ∈ (assess_impact
          [{ «namespace» := "ns1", pod_name := "p", container_name := "a",
             node_name := "n" }] []).1
    ∧ ((resolveOne []
          { «namespace» := "ns1", pod_name := "p", container_name := "a",
            node_name := "n" }).impact,
        (resolveOne []
          { «namespace» := "ns1", pod_name := "p", container_name := "a",
            node_name := "n" }).criticality_sort)
        = classify (resolveOne []
            { «namespace» := "ns1", pod_name := "p", container_name := "a",
              node_name := "n" }).criticality
    ∧ classify "low/medium/high" = ("Unknown impact", 4) :=
  ⟨by simp [assess_impact],
    impact_label_pure_function_of_criticality.1
      [{ «namespace» := "ns1", pod_name := "p", container_name := "a",
         node_name := "n" }] [] _ (by simp [assess_impact]),
    impact_label_pure_function_of_criticality.2.2.2.2.2 "low/medium/high"
      (by decide) (by decide) (by decide)⟩

/-- C5: the gap list of `assess_impact` holds exactly one
`(namespace, container)` pair per instance whose catalog lookup
misses, in input order and without deduplication across pod replicas;
and a missing instance's record carries exactly the fixed default
(description "No information available", no dependencies, criticality
"unknown", hence rank 4 and label "Unknown impact"). -/
theorem catalog_gap_per_missing_instance :
    (∀ (instances : List ContainerInstance) (info : Catalog),
        (assess_impact instances info).2
          = (instances.filter
              (fun c => (lookupInfo info c.«namespace» c.container_name).isNone)).map
              (fun c => (c.«namespace», c.container_name)))
    ∧ (∀ (info : Catalog) (c : ContainerInstance),
        lookupInfo info c.«namespace» c.container_name = none →
          resolveOne info c
            = { «namespace» := c.«namespace», pod_name := c.pod_name,
                container_name := c.container_name, node_name := c.node_name,
                description := "No information available", dependencies := [],
                criticality := "unknown", criticality_sort := 4,
                impact := "Unknown impact" }) := by
  refine ⟨fun instances info => assess_impact_snd info instances, ?_⟩
  intro info c h
  simp [resolveOne, h, defaultInfo, classify]

/-- Witness for C5: the specification's own example — catalog
containing only ns1/a, instances for ns1/a and ns1/b — yields exactly
one gap, for ("ns1","b"), and the default record for b.  A second
replica of b yields a second, non-deduplicated gap. -/
theorem catalog_gap_per_missing_instance_witness :
    lookupInfo
        [("ns1", [("a", { description := some "da", dependencies := some [],
                          criticality := some "high" })])] "ns1" "b" = none
    ∧ (assess_impact
        [{ «namespace» := "ns1", pod_name := "pa", container_name := "a",
           node_name := "n1" },
         { «namespace» := "ns1", pod_name := "pb", container_name := "b",
           node_name := "n1" }]
        [("ns1", [("a", { description := some "da", dependencies := some [],
                          criticality := some "high" })])]).2
      = [("ns1", "b")]
    ∧ (assess_impact
        [{ «namespace» := "ns1", pod_name := "pb1", container_name := "b",
           node_name := "n1" },
         { «namespace» := "ns1", pod_name := "pb2", container_name := "b",
           node_name := "n1" }]
        [("ns1", [("a", { description := some "da", dependencies := some [],
                          criticality := some "high" })])]).2
      = [("ns1", "b"), ("ns1", "b")]
    ∧ (resolveOne
        [("ns1", [("a", { description := some "da", dependencies := some [],
                          criticality := some "high" })])]
        { «namespace» := "ns1", pod_name := "pb", container_name := "b",
          node_name := "n1" }).criticality = "unknown" :=
  ⟨rfl,
    (catalog_gap_per_missing_instance.1
        [{ «namespace» := "ns1", pod_name := "pa", container_name := "a",
           node_name := "n1" },
         { «namespace» := "ns1", pod_name := "pb", container_name := "b",
           node_name := "n1" }]
        [("ns1", [("a", { description := some "da", dependencies := some [],
                          criticality := some "high" })])]).trans (by decide),
    (catalog_gap_per_missing_instance.1
        [{ «namespace» := "ns1", pod_name := "pb1", container_name := "b",
           node_name := "n1" },
         { «namespace» := "ns1", pod_name := "pb2", container_name := "b",
           node_name := "n1" }]
        [("ns1", [("a", { description := some "da", dependencies := some [],
                          criticality := some "high" })])]).trans (by decide),
    (congrArg ImpactRecord.criticality
        (catalog_gap_per_missing_instance.2
          [("ns1", [("a", { description := some "da", dependencies := some [],
                            criticality := some "high" })])]
          { «namespace» := "ns1", pod_name := "pb", container_name := "b",
            node_name := "n1" } rfl)).trans rfl⟩

/-- C10: a catalog entry that is present but whose criticality string
(after the `dict.get` default for a missing field) is none of "high",
"medium", "low" — for example the template placeholder
"low/medium/high" — resolves to rank 4 with label "Unknown impact",
raises no error, and emits no `CatalogGap` for that instance. -/
theorem unrecognized_criticality_classified_unknown
    (info : Catalog) (c : ContainerInstance) (e : CatalogEntry)
    (hl : lookupInfo info c.«namespace» c.container_name = some e)
    (hh : e.criticality.getD "unknown" ≠ "high")
    (hm : e.criticality.getD "unknown" ≠ "medium")
    (hlo : e.criticality.getD "unknown" ≠ "low") :
    (resolveOne info c).criticality_sort = 4
    ∧ (resolveOne info c).impact = "Unknown impact"
    ∧ (assess_impact [c] info).2 = [] := by
  refine ⟨?_, ?_, ?_⟩
  · simp [resolveOne, hl, classify, hh, hm, hlo]
  · simp [resolveOne, hl, classify, hh, hm, hlo]
  · simp [assess_impact, hl]

/-- Witness for C10: a catalog entry carrying the untouched template
placeholder criticality "low/medium/high". -/
theorem unrecognized_criticality_classified_unknown_witness :
    lookupInfo
        [("ns1", [("a", { description := some "da", dependencies := some [],
                          criticality := some "low/medium/high" })])] "ns1" "a"
      = some { description := some "da", dependencies := some [],
               criticality := some "low/medium/high" }
    ∧ ("low/medium/high" : String) ≠ "high"
    ∧ ("low/medium/high" : String) ≠ "medium"
    ∧ ("low/medium/high" : String) ≠ "low"
    ∧ (resolveOne
        [("ns1", [("a", { description := some "da", dependencies := some [],
                          criticality := some "low/medium/high" })])]
        { «namespace» := "ns1", pod_name := "p", container_name := "a",
          node_name := "n1" }).criticality_sort = 4 :=
  ⟨rfl, by decide, by decide, by decide,
    (unrecognized_criticality_classified_unknown
        [("ns1", [("a", { description := some "da", dependencies := some [],
                          criticality := some "low/medium/high" })])]
        { «namespace» := "ns1", pod_name := "p", container_name := "a",
          node_name := "n1" }
        { description := some "da", dependencies := some [],
          criticality := some "low/medium/high" }
        rfl (by decide) (by decide) (by decide)).1⟩

/-- C2 as stated fails: `generate_table_report` (and
`generate_table_per_node`) sort only by `criticality_sort`, and
Python's stable sort keeps equal-criticality records in input order.
Two rank-1 records given with namespaces "b" then "a" come out in that
same order, violating the claimed namespace-ascending tie-break. -/
theorem table_sort_secondary_order_counterexample :
    ¬ List.Pairwise
        (fun a b : ImpactRecord =>
          a.criticality_sort < b.criticality_sort
          ∨ (a.criticality_sort = b.criticality_sort
              ∧ (a.«namespace» < b.«namespace»
                  ∨ (a.«namespace» = b.«namespace»
                      ∧ a.container_name ≤ b.container_name))))
        (sorted_reports
          [{ «namespace» := "b", pod_name := "p1", container_name := "x",
             node_name := "n1", description := "d", dependencies := [],
             criticality := "high", criticality_sort := 1, impact := "High impact" },
           { «namespace» := "a", pod_name := "p2", container_name := "y",
             node_name := "n1", description := "d", dependencies := [],
             criticality := "high", criticality_sort := 1, impact := "High impact" }]) := by
  intro h
  rw [show sorted_reports
        [{ «namespace» := "b", pod_name := "p1", container_name := "x",
           node_name := "n1", description := "d", dependencies := [],
           criticality := "high", criticality_sort := 1, impact := "High impact" },
         { «namespace» := "a", pod_name := "p2", container_name := "y",
           node_name := "n1", description := "d", dependencies := [],
           criticality := "high", criticality_sort := 1, impact := "High impact" }]
      = [{ «namespace» := "b", pod_name := "p1", container_name := "x",
           node_name := "n1", description := "d", dependencies := [],
           criticality := "high", criticality_sort := 1, impact := "High impact" },
         { «namespace» := "a", pod_name := "p2", container_name := "y",
           node_name := "n1", description := "d", dependencies := [],
           criticality := "high", criticality_sort := 1, impact := "High impact" }]
      from rfl] at h
  have h1 := (List.pairwise_cons.mp h).1 _ (List.mem_singleton.mpr rfl)
  rcases h1 with hlt | ⟨_, hns | ⟨hnse, _⟩⟩
  · exact absurd hlt (by decide)
  · rw [String.lt_iff_toList_lt] at hns
    revert hns
    decide
  · revert hnse
    decide

/-- C2 amended: the tabular reports list records sorted by
`criticality_sort` ascending (high=1 before medium=2 before low=3
before unknown=4), and records of equal criticality appear in their
original input order (the sort is stable), not re-sorted by namespace
or container name.  Stability is expressed by filtering: for every
rank value, the sorted list restricted to that rank equals the input
restricted to that rank. -/
theorem table_sorted_by_rank_stable (reports : List ImpactRecord) (k : Nat) :
    List.Pairwise (fun a b => a.criticality_sort ≤ b.criticality_sort)
      (sorted_reports reports)
    ∧ List.Perm (sorted_reports reports) reports
    ∧ (sorted_reports reports).filter (fun r => r.criticality_sort == k)
        = reports.filter (fun r => r.criticality_sort == k) := by
  refine ⟨?_, ?_, ?_⟩
  · exact List.sorted_insertionSort (fun a b => a.criticality_sort ≤ b.criticality_sort)
      reports
  · exact List.perm_insertionSort (fun a b => a.criticality_sort ≤ b.criticality_sort)
      reports
  · exact filter_insertionSort_key (fun r => r.criticality_sort) k reports

/-- C3 as stated fails: `generate_graph_data_json` appends one vertex
per record without deduplication, so two records with the same
namespace/container on one node (two pod replicas) produce two
vertices with the identical id "x/c" — not one vertex per distinct
identity. -/
theorem graph_vertex_per_distinct_identity_counterexample :
    (generate_graph_data
        [{ «namespace» := "x", pod_name := "p1", container_name := "c",
           node_name := "n1", description := "d", dependencies := [],
           criticality := "high", criticality_sort := 1, impact := "High impact" },
         { «namespace» := "x", pod_name := "p2", container_name := "c",
           node_name := "n1", description := "d", dependencies := [],
           criticality := "high", criticality_sort := 1, impact := "High impact" }]).map
        (fun p => (p.1, p.2.nodes.map (fun v => v.id)))
      = [("n1", ["x/c", "x/c"])]
    ∧ ¬ List.Nodup ["x/c", "x/c"] := by
  constructor
  · rfl
  · decide

/-- C3 amended: the per-node graph contains one vertex per
`ImpactRecord` of that node, in record order (so duplicate
namespace/container identities yield duplicate vertices), each
carrying criticality, description and dependency list; and one
directed edge per (record, dependency) pair from the record's identity
to the literal dependency string, with edge targets not validated
against the vertex set. -/
theorem graph_vertex_per_record (reports : List ImpactRecord) (n : String)
    (g : NodeGraph) (h : (n, g) ∈ generate_graph_data reports) :
    g.nodes = (reports.filter (fun r => r.node_name == n)).map graph_vertex
    ∧ g.edges = (reports.filter (fun r => r.node_name == n)).flatMap
        (fun r => r.dependencies.map
          (fun dep => { fromId := container_full_name r, toId := dep })) := by
  obtain ⟨m, _, he⟩ := List.mem_map.mp h
  rw [Prod.mk.injEq] at he
  obtain ⟨rfl, rfl⟩ := he
  exact ⟨build_node_graph_nodes _, build_node_graph_edges _⟩

/-- Witness for C3 amended at a concrete input: one record on node
"n1" with a dependency naming a container on no node (a dangling edge
target). -/
theorem graph_vertex_per_record_witness :
    ("n1",
        build_node_graph
          (List.filter (fun r => r.node_name == "n1")
            [{ «namespace» := "x", pod_name := "p1", container_name := "c",
               node_name := "n1", description := "d",
               dependencies := ["y/absent"], criticality := "high",
               criticality_sort := 1, impact := "High impact" }]))
      ∈ generate_graph_data
          [{ «namespace» := "x", pod_name := "p1", container_name := "c",
             node_name := "n1", description := "d",
             dependencies := ["y/absent"], criticality := "high",
             criticality_sort := 1, impact := "High impact" }]
    ∧ (build_node_graph
          (List.filter (fun r => r.node_name == "n1")
            [{ «namespace» := "x", pod_name := "p1", container_name := "c",
               node_name := "n1", description := "d",
               dependencies := ["y/absent"], criticality := "high",
               criticality_sort := 1, impact := "High impact" }])).edges
        = [{ fromId := "x/c", toId := "y/absent" }] :=
  ⟨by decide,
    ((graph_vertex_per_record
        [{ «namespace» := "x", pod_name := "p1", container_name := "c",
           node_name := "n1", description := "d",
           dependencies := ["y/absent"], criticality := "high",
           criticality_sort := 1, impact := "High impact" }] "n1" _
        (by decide)).2).trans (by decide)⟩

/-- C9: the per-node grouped report and the consolidated export share
one partition (`group_reports_by_node`): its keys are the distinct
node names in strictly ascending order, each key maps to exactly the
records whose `node_name` equals it, every record's node appears among
the keys, and a record belongs to the partition of a node name iff
that name is its own node — so each record lands in exactly one
partition. -/
theorem per_node_partition (reports : List ImpactRecord) :
    List.Pairwise (· < ·) (node_names_sorted reports)
    ∧ (group_reports_by_node reports).map Prod.fst = node_names_sorted reports
    ∧ (∀ (n : String) (rs : List ImpactRecord),
        (n, rs) ∈ group_reports_by_node reports →
          rs = reports.filter (fun r => r.node_name == n))
    ∧ (∀ r ∈ reports, r.node_name ∈ node_names_sorted reports)
    ∧ (∀ r ∈ reports, ∀ n : String,
        (r ∈ reports.filter (fun x => x.node_name == n) ↔ n = r.node_name)) := by
  refine ⟨?_, ?_, ?_, ?_, ?_⟩
  · exact pairwise_lt_of_le_nodup
      (List.sorted_insertionSort (· ≤ ·) _)
      ((List.perm_insertionSort (· ≤ ·) _).nodup_iff.mpr (List.nodup_dedup _))
  · simp [group_reports_by_node, Function.comp_def]
  · intro n rs h
    obtain ⟨m, _, he⟩ := List.mem_map.mp h
    rw [Prod.mk.injEq] at he
    obtain ⟨rfl, rfl⟩ := he
    rfl
  · intro r hr
    exact (List.perm_insertionSort (· ≤ ·) _).mem_iff.mpr
      (List.mem_dedup.mpr (List.mem_map_of_mem (fun x => x.node_name) hr))
  · intro r hr n
    rw [List.mem_filter]
    constructor
    · intro h
      exact (beq_iff_eq.mp h.2).symm
    · intro h
      exact ⟨hr, beq_iff_eq.mpr h.symm⟩

/-- Witness for C9 at a concrete input: of two records on nodes "n2"
and "n1", the one on "n1" has its node among the partition keys and
belongs to the "n1" partition and no other. -/
theorem per_node_partition_witness :
    ({ «namespace» := "y", pod_name := "p2", container_name := "c2",
       node_name := "n1", description := "d", dependencies := [],
       criticality := "low", criticality_sort := 3,
       impact := "Low impact" } : ImpactRecord)
      ∈ ([{ «namespace» := "x", pod_name := "p1", container_name := "c1",
            node_name := "n2", description := "d", dependencies := [],
            criticality := "high", criticality_sort := 1, impact := "High impact" },
          { «namespace» := "y", pod_name := "p2", container_name := "c2",
            node_name := "n1", description := "d", dependencies := [],
            criticality := "low", criticality_sort := 3,
            impact := "Low impact" }] : List ImpactRecord)
    ∧ ({ «namespace» := "y", pod_name := "p2", container_name := "c2",
         node_name := "n1", description := "d", dependencies := [],
         criticality := "low", criticality_sort := 3,
         impact := "Low impact" } : ImpactRecord).node_name
        ∈ node_names_sorted
            [{ «namespace» := "x", pod_name := "p1", container_name := "c1",
               node_name := "n2", description := "d", dependencies := [],
               criticality := "high", criticality_sort := 1, impact := "High impact" },
             { «namespace» := "y", pod_name := "p2", container_name := "c2",
               node_name := "n1", description := "d", dependencies := [],
               criticality := "low", criticality_sort := 3,
               impact := "Low impact" }]
    ∧ (({ «namespace» := "y", pod_name := "p2", container_name := "c2",
          node_name := "n1", description := "d", dependencies := [],
          criticality := "low", criticality_sort := 3,
          impact := "Low impact" } : ImpactRecord)
        ∈ ([{ «namespace» := "x", pod_name := "p1", container_name := "c1",
              node_name := "n2", description := "d", dependencies := [],
              criticality := "high", criticality_sort := 1, impact := "High impact" },
            { «namespace» := "y", pod_name := "p2", container_name := "c2",
              node_name := "n1", description := "d", dependencies := [],
              criticality := "low", criticality_sort := 3,
              impact := "Low impact" }] : List ImpactRecord).filter
            (fun x => x.node_name == "n1")
        ↔ "n1" = ({ «namespace» := "y", pod_name := "p2", container_name := "c2",
                    node_name := "n1", description := "d", dependencies := [],
                    criticality := "low", criticality_sort := 3,
                    impact := "Low impact" } : ImpactRecord).node_name) :=
  ⟨by decide,
    (per_node_partition
        [{ «namespace» := "x", pod_name := "p1", container_name := "c1",
           node_name := "n2", description := "d", dependencies := [],
           criticality := "high", criticality_sort := 1, impact := "High impact" },
         { «namespace» := "y", pod_name := "p2", container_name := "c2",
           node_name := "n1", description := "d", dependencies := [],
           criticality := "low", criticality_sort := 3,
           impact := "Low impact" }]).2.2.2.1 _ (by decide),
    (per_node_partition
        [{ «namespace» := "x", pod_name := "p1", container_name := "c1",
           node_name := "n2", description := "d", dependencies := [],
           criticality := "high", criticality_sort := 1, impact := "High impact" },
         { «namespace» := "y", pod_name := "p2", container_name := "c2",
           node_name := "n1", description := "d", dependencies := [],
           criticality := "low", criticality_sort := 3,
           impact := "Low impact" }]).2.2.2.2 _ (by decide) "n1"⟩

/-- C7: `get_pods_on_node` retains exactly the pods whose node field
equals the selected node name — so unscheduled pods (node field
absent) are excluded; `extract_containers` yields one
`ContainerInstance` per (pod, container) pair — a pod with N
containers yields N instances — and labels pods with no node assigned
as node "Unknown". -/
theorem inventory_extraction_scope :
    (∀ (pods : List Pod) (node : String) (p : Pod),
        p ∈ get_pods_on_node pods node ↔ p ∈ pods ∧ p.nodeName = some node)
    ∧ (∀ (pods : List Pod) (node : String) (p : Pod),
        p.nodeName = none → p ∉ get_pods_on_node pods node)
    ∧ (∀ p : Pod, extract_containers [p]
        = p.containers.map (fun cname =>
            { «namespace» := p.«namespace», pod_name := p.pod_name,
              container_name := cname, node_name := p.nodeName.getD "Unknown" }))
    ∧ (∀ pods : List Pod, (extract_containers pods).length
        = (pods.map (fun p => p.containers.length)).sum)
    ∧ (∀ p : Pod, p.nodeName = none →
        ∀ inst ∈ extract_containers [p], inst.node_name = "Unknown") := by
  have hmem : ∀ (pods : List Pod) (node : String) (p : Pod),
      p ∈ get_pods_on_node pods node ↔ p ∈ pods ∧ p.nodeName = some node := by
    intro pods node p
    simp [get_pods_on_node, List.mem_filter]
  refine ⟨hmem, ?_, ?_, ?_, ?_⟩
  · intro pods node p h hp
    rw [hmem pods node p] at hp
    rw [h] at hp
    exact Option.noConfusion hp.2
  · intro p
    simp [extract_containers]
  · intro pods
    induction pods with
    | nil => rfl
    | cons p ps ih =>
      simp [extract_containers, List.flatMap_cons, ih]
      simp [extract_containers] at ih
      omega
  · intro p h inst hinst
    simp [extract_containers, h] at hinst
    obtain ⟨cname, _, rfl⟩ := hinst
    rfl

/-- Witness for C7 at a concrete input: a scheduled and an unscheduled
pod.  The unscheduled pod is excluded from the single-node scope and
its instances are labeled "Unknown"; the two-container pod yields two
instances. -/
theorem inventory_extraction_scope_witness :
    (({ «namespace» := "ns", pod_name := "p1", nodeName := some "n1",
        containers := ["c1", "c2"] } : Pod)
      ∈ get_pods_on_node
          [{ «namespace» := "ns", pod_name := "p1", nodeName := some "n1",
             containers := ["c1", "c2"] },
           { «namespace» := "ns", pod_name := "p2", nodeName := none,
             containers := ["c3"] }] "n1"
      ↔ ({ «namespace» := "ns", pod_name := "p1", nodeName := some "n1",
           containers := ["c1", "c2"] } : Pod)
          ∈ ([{ «namespace» := "ns", pod_name := "p1", nodeName := some "n1",
                containers := ["c1", "c2"] },
              { «namespace» := "ns", pod_name := "p2", nodeName := none,
                containers := ["c3"] }] : List Pod)
        ∧ ({ «namespace» := "ns", pod_name := "p1", nodeName := some "n1",
             containers := ["c1", "c2"] } : Pod).nodeName = some "n1")
    ∧ ({ «namespace» := "ns", pod_name := "p2", nodeName := none,
         containers := ["c3"] } : Pod)
        ∉ get_pods_on_node
            [{ «namespace» := "ns", pod_name := "p1", nodeName := some "n1",
               containers := ["c1", "c2"] },
             { «namespace» := "ns", pod_name := "p2", nodeName := none,
               containers := ["c3"] }] "n1"
    ∧ (extract_containers
        [{ «namespace» := "ns", pod_name := "p1", nodeName := some "n1",
           containers := ["c1", "c2"] }]).length
        = (2 : Nat)
    ∧ (∀ inst ∈ extract_containers
          [{ «namespace» := "ns", pod_name := "p2", nodeName := none,
             containers := ["c3"] }],
        inst.node_name = "Unknown") :=
  ⟨inventory_extraction_scope.1
      [{ «namespace» := "ns", pod_name := "p1", nodeName := some "n1",
         containers := ["c1", "c2"] },
       { «namespace» := "ns", pod_name := "p2", nodeName := none,
         containers := ["c3"] }] "n1"
      { «namespace» := "ns", pod_name := "p1", nodeName := some "n1",
        containers := ["c1", "c2"] },
    inventory_extraction_scope.2.1
      [{ «namespace» := "ns", pod_name := "p1", nodeName := some "n1",
         containers := ["c1", "c2"] },
       { «namespace» := "ns", pod_name := "p2", nodeName := none,
         containers := ["c3"] }] "n1"
      { «namespace» := "ns", pod_name := "p2", nodeName := none,
        containers := ["c3"] } rfl,
    ((inventory_extraction_scope.2.2.2.1
        [{ «namespace» := "ns", pod_name := "p1", nodeName := some "n1",
           containers := ["c1", "c2"] }]).trans (by decide)),
    inventory_extraction_scope.2.2.2.2
      { «namespace» := "ns", pod_name := "p2", nodeName := none,
        containers := ["c3"] } rfl⟩

/-- C6 as stated fails: with the inventory snapshot present and
`container_info.json` absent, `main` prints a message and returns
normally (validate.py lines 369-371), so the process exits 0, not 1. -/
theorem exit_code_missing_catalog_counterexample :
    processExitCode (mainOutcome true true ["node1"] false true) ≠ 1 := by
  decide

/-- C6 amended: exit code 0 on normal completion; a missing catalog
document (or empty node list, or no containers) causes an early return
from `main` with exit code 0, not 1; exit code 1 occurs when inventory
retrieval fails — `get_all_pods` in get_json.py calls `sys.exit(1)` on
a nonzero kubectl status, and `main` in validate.py dies with an
uncaught decode error when kubectl fails while collecting the
session snapshot. -/
theorem exit_codes_amended :
    (∀ node_names : List String, node_names ≠ [] →
        processExitCode (mainOutcome true true node_names true true) = 0)
    ∧ (∀ node_names : List String, node_names ≠ [] →
        ∀ containers_nonempty : Bool,
          processExitCode (mainOutcome true true node_names false containers_nonempty) = 0)
    ∧ (∀ (node_names : List String) (catalog_exists containers_nonempty : Bool),
        processExitCode (mainOutcome false false node_names catalog_exists containers_nonempty) = 1)
    ∧ (∀ rc : Int, rc ≠ 0 → get_all_pods_exit_code rc = some 1)
    ∧ get_all_pods_exit_code 0 = none := by
  refine ⟨?_, ?_, ?_, ?_, rfl⟩
  · intro node_names h
    cases node_names with
    | nil => exact absurd rfl h
    | cons a l => rfl
  · intro node_names h containers_nonempty
    cases node_names with
    | nil => exact absurd rfl h
    | cons a l => rfl
  · intro node_names catalog_exists containers_nonempty
    rfl
  · intro rc h
    simp [get_all_pods_exit_code, h]

/-- Witness for C6 amended at concrete inputs: one node with catalog
present completes with exit 0; the same with catalog absent exits 0;
a failed inventory retrieval exits 1 both in validate.py and in
get_json.py. -/
theorem exit_codes_amended_witness :
    (["node1"] : List String) ≠ []
    ∧ processExitCode (mainOutcome true true ["node1"] true true) = 0
    ∧ processExitCode (mainOutcome true true ["node1"] false true) = 0
    ∧ processExitCode (mainOutcome false false ["node1"] true true) = 1
    ∧ (1 : Int) ≠ 0
    ∧ get_all_pods_exit_code 1 = some 1 :=
  ⟨by decide,
    exit_codes_amended.1 ["node1"] (by decide),
    exit_codes_amended.2.1 ["node1"] (by decide) true,
    exit_codes_amended.2.2.1 ["node1"] true true,
    by decide,
    exit_codes_amended.2.2.2.1 1 (by decide)⟩

/-- C8 as stated fails: the claim describes sanitization as the pure
character filter (keep alphanumerics, spaces, underscores, hyphens),
but `sanitize_filename` additionally calls `.rstrip()`, so a label
with a trailing space sanitizes differently from the claim's
description: "a " becomes "a", not "a ". -/
theorem sanitize_trailing_space_counterexample :
    sanitize_filename "a " ≠ claimed_sanitize "a " := by
  decide

/-- C8 amended: the rendered report filename for a selected node is
the sanitized label — keeping only alphanumerics, spaces, underscores
and hyphens, stripping all other characters, and additionally removing
trailing spaces — joined by an underscore with the minute-resolution
timestamp and the ".txt" extension; in particular "node/1*bad"
sanitizes to "node1bad". -/
theorem report_filename_sanitized_amended (label current_datetime : String) :
    report_filename (some label) current_datetime
      = amended_sanitize label ++ "_" ++ current_datetime ++ ".txt"
    ∧ sanitize_filename "node/1*bad" = "node1bad" := by
  constructor
  · show sanitize_filename label ++ "_" ++ current_datetime ++ ".txt" = _
    rw [sanitize_filename_eq_amended]
  · decide

end NodeFailure
